import Mathlib

set_option maxRecDepth 100000

/-!
Verification of the QueryCraft natural-language-to-SQL core.

This file gives a shallow embedding, in Lean 4, of the pure core of the
QueryCraft repository (files `core_ai_services/nl_to_sql.py`,
`core_ai_services/llm_sql_generator.py`, `core_ai_services/sqlite_introspection.py`
and `backend_api/main.py`), and proves or refutes the specification claims
about that core.

Conventions of the embedding:
* Python strings are Lean `String`; character-level work is done on `List Char`
  via `String.data`.
* Python `str.lower` and `str.upper` are per-character `Char.toLower` and
  `Char.toUpper` (the source only ever manipulates ASCII SQL/question text).
* Python `str.strip` is `stripL` below, which removes the ASCII whitespace
  characters Python strips from both ends.
* the regular expressions used by the source (only two shapes occur:
  `FROM\s+(\w+)` and `JOIN\s+(\w+)`) are embedded by the explicit scanner
  `scanKw` below, which mirrors `re.findall`: it scans left-to-right and
  resumes after the end of each non-overlapping match; `\s` and `\w` are the
  ASCII whitespace and word-character classes.
* Python `list(set(xs))` is `List.dedup`.  CPython iterates a set in an
  unspecified order; the embedding fixes the first-occurrence order.  No claim
  below depends on the order of such lists, only on their membership.
-/

namespace QueryCraft

/-- Python word-character class `\w` (ASCII part): letters, digits, underscore. -/
def isWordChar (c : Char) : Bool :=
  c.isAlphanum || c = '_'

/-- Python whitespace class (the characters `str.strip` and `\s` treat as
whitespace in ASCII text): space, tab, newline, carriage return, vertical tab,
form feed. -/
def isPyWhite (c : Char) : Bool :=
  c = ' ' || c = '\t' || c = '\n' || c = '\r' || c = Char.ofNat 11 || c = Char.ofNat 12

/-- Lower-cased character data of a string, Python `s.lower()`. -/
def lowerL (s : String) : List Char :=
  s.data.map Char.toLower

/-- Upper-cased character data of a string, Python `s.upper()`. -/
def upperL (s : String) : List Char :=
  s.data.map Char.toUpper

/-- Python `s.strip()` on character data: drop whitespace from both ends. -/
def stripL (l : List Char) : List Char :=
  ((l.dropWhile isPyWhite).reverse.dropWhile isPyWhite).reverse

/-- Boolean test that `pre` is a prefix of `l` (Python `str.startswith`). -/
def isPreB : List Char → List Char → Bool
  | [], _ => true
  | _ :: _, [] => false
  | a :: pre, b :: l => a = b && isPreB pre l

/-- Boolean substring test (Python `needle in hay`). -/
def infixB (needle : List Char) : List Char → Bool
  | [] => needle.isEmpty
  | c :: rest => isPreB needle (c :: rest) || infixB needle rest

/-- Drop an expected literal prefix, returning the remainder on success. -/
def dropPre : List Char → List Char → Option (List Char)
  | [], l => some l
  | _ :: _, [] => none
  | a :: pre, b :: l => if a = b then dropPre pre l else none

/-- Match the regex `kw\s+(\w+)` at the head of `l`: the literal keyword,
then at least one whitespace character, then a maximal nonempty run of word
characters (the capture).  Returns the capture and the remainder after it. -/
def tryMatch (kw : List Char) (l : List Char) : Option (List Char × List Char) :=
  match dropPre kw l with
  | none => none
  | some rest =>
    if (rest.takeWhile isPyWhite).isEmpty then none
    else
      let rest2 := rest.dropWhile isPyWhite
      let word := rest2.takeWhile isWordChar
      if word.isEmpty then none
      else some (word, rest2.dropWhile isWordChar)

/-- Fueled left-to-right scan for all non-overlapping matches of
`kw\s+(\w+)`, resuming after each match, as `re.findall` does.  The fuel is
an upper bound on the number of scan positions; `scanKw` supplies the length
of the text, which always suffices. -/
def scanAux (kw : List Char) : Nat → List Char → List (List Char)
  | _, [] => []
  | 0, _ :: _ => []
  | Nat.succ fuel, c :: rest =>
    match tryMatch kw (c :: rest) with
    | some (word, rem) => word :: scanAux kw fuel rem
    | none => scanAux kw fuel rest

/-- All captures of `re.findall(kw + r'\s+(\w+)', text)`. -/
def scanKw (kw : List Char) (text : List Char) : List (List Char) :=
  scanAux kw text.length text

end QueryCraft

namespace QueryCraft

/-! Embedding of `llm_sql_generator.py` (the pure parts). -/

/-- The mutating keywords rejected by the validator, in the source's order
(`llm_sql_generator.py`, `validate_sql_syntax`). -/
def dangerous_keywords : List String :=
  ["drop", "delete", "truncate", "alter", "create", "insert", "update"]

/-- Embedding of `LLMSQLGenerator.validate_sql_syntax` (llm_sql_generator.py
lines 269-311): reject empty input, then require the lowered-and-stripped text
to start with `select`, contain `from`, have balanced parenthesis counts in the
original text, and contain no dangerous keyword. -/
def validate_sql_syntax (sql : String) : Bool :=
  if sql.data.isEmpty then false
  else
    let l := stripL (lowerL sql)
    if ¬ isPreB "select".data l then false
    else if ¬ infixB "from".data l then false
    else if ¬ (sql.data.count '(' = sql.data.count ')') then false
    else if dangerous_keywords.any (fun kw => infixB kw.data l) then false
    else true

/-- Verdict record from the specification's data model
(`ValidationVerdict`: is_valid plus optional reason). -/
structure ValidationVerdict where
  is_valid : Bool
  reason : Option String
  deriving Repr, DecidableEq

/-- Modelled from the spec: the source's validator returns a bare boolean and
only logs the branch that rejected; the `ValidationVerdict.reason` field of the
spec's data model is missing from src.  This wrapper runs the source's checks
in the source's order and attaches the spec's reason vocabulary ("not a read
query" for rule 1, "dangerous keyword" for rule 4) to the branch that fired. -/
def validateVerdict (sql : String) : ValidationVerdict :=
  if sql.data.isEmpty then { is_valid := false, reason := some "not a read query" }
  else
    let l := stripL (lowerL sql)
    if ¬ isPreB "select".data l then { is_valid := false, reason := some "not a read query" }
    else if ¬ infixB "from".data l then { is_valid := false, reason := some "missing FROM clause" }
    else if ¬ (sql.data.count '(' = sql.data.count ')') then
      { is_valid := false, reason := some "unbalanced parentheses" }
    else
      match dangerous_keywords.find? (fun kw => infixB kw.data l) with
      | some kw => { is_valid := false, reason := some ("dangerous keyword: " ++ kw) }
      | none => { is_valid := true, reason := none }

/-- Embedding of `LLMSQLGenerator.extract_tables_from_sql`: lowercase the SQL,
collect the captures of `from\s+(\w+)` and `join\s+(\w+)`, and deduplicate. -/
def extract_tables_from_sql_llm (sql : String) : List String :=
  let l := lowerL sql
  ((scanKw "from".data l ++ scanKw "join".data l).map fun w => String.mk w).dedup

end QueryCraft

namespace QueryCraft

/-! Embedding of `nl_to_sql.py` (class `NLToSQLProcessor`).  The processor's
schema-dependent state is `self.table_names = list(schema.keys())`, passed
here explicitly as `table_names`.  Only the question's lower-cased text
(`question_lower`) is consulted by the handlers; the original `question`
parameter of each handler is kept for fidelity but unused, as in the source. -/

/-- A handler's return value: the `sql_query` / `explanation` pair. -/
structure PatternTemplate where
  sql_query : String
  explanation : String
  deriving Repr, DecidableEq

/-- The enriched result assembled by `_pattern_matching_query`. -/
structure GenerationResult where
  sql_query : String
  explanation : String
  generation_method : String
  confidence : Int
  tables_used : List String
  tokens_used : Nat
  deriving Repr, DecidableEq

/-- Superlative cue of the dispatch (nl_to_sql.py line 92). -/
def hasSuperlativeCue (question_lower : List Char) : Bool :=
  ["top", "highest", "most", "best"].any fun w => infixB w.data question_lower

/-- Count cue of the dispatch (line 94). -/
def hasCountCue (question_lower : List Char) : Bool :=
  infixB "count".data question_lower || infixB "how many".data question_lower

/-- Average cue of the dispatch (line 96). -/
def hasAverageCue (question_lower : List Char) : Bool :=
  ["average", "avg", "mean"].any fun w => infixB w.data question_lower

/-- Sum cue of the dispatch (line 98). -/
def hasSumCue (question_lower : List Char) : Bool :=
  ["total", "sum"].any fun w => infixB w.data question_lower

/-- Listing cue of the dispatch (line 100). -/
def hasListCue (question_lower : List Char) : Bool :=
  ["list", "show", "all", "get"].any fun w => infixB w.data question_lower

/-- Embedding of `_handle_top_queries` (lines 138-177).  In the source the
`product` branch can fall through its inner `if`/`elif` to the final
`return`; that final template therefore appears in both `else` arms here. -/
def _handle_top_queries (_question : String) (question_lower : List Char) : PatternTemplate :=
  if infixB "customer".data question_lower then
    if infixB "value".data question_lower || infixB "amount".data question_lower
        || infixB "spend".data question_lower then
      { sql_query := "SELECT c.customer_name, SUM(o.total_amount) as total_spent \n                                   FROM customers c \n                                   JOIN orders o ON c.customer_id = o.customer_id \n                                   GROUP BY c.customer_id, c.customer_name \n                                   ORDER BY total_spent DESC \n                                   LIMIT 10",
        explanation := "This query finds the top 10 customers by total spending amount by joining customers and orders tables, grouping by customer, and summing their order totals." }
    else
      { sql_query := "SELECT customer_name, email FROM customers ORDER BY customer_id DESC LIMIT 10",
        explanation := "This query shows the top 10 most recent customers." }
  else if infixB "product".data question_lower then
    if infixB "selling".data question_lower || infixB "popular".data question_lower then
      { sql_query := "SELECT p.product_name, SUM(oi.quantity) as total_sold \n                                   FROM products p \n                                   JOIN order_items oi ON p.product_id = oi.product_id \n                                   GROUP BY p.product_id, p.product_name \n                                   ORDER BY total_sold DESC \n                                   LIMIT 10",
        explanation := "This query finds the top 10 best-selling products by total quantity sold." }
    else if infixB "expensive".data question_lower || infixB "price".data question_lower then
      { sql_query := "SELECT product_name, price FROM products ORDER BY price DESC LIMIT 10",
        explanation := "This query shows the top 10 most expensive products." }
    else
      { sql_query := "SELECT * FROM customers LIMIT 10",
        explanation := "Showing top 10 records from customers table." }
  else
    { sql_query := "SELECT * FROM customers LIMIT 10",
      explanation := "Showing top 10 records from customers table." }

/-- Embedding of `_handle_count_queries` (lines 179-200). -/
def _handle_count_queries (_question : String) (question_lower : List Char) : PatternTemplate :=
  if infixB "customer".data question_lower then
    { sql_query := "SELECT COUNT(*) as customer_count FROM customers",
      explanation := "This query counts the total number of customers." }
  else if infixB "order".data question_lower then
    { sql_query := "SELECT COUNT(*) as order_count FROM orders",
      explanation := "This query counts the total number of orders." }
  else if infixB "product".data question_lower then
    { sql_query := "SELECT COUNT(*) as product_count FROM products",
      explanation := "This query counts the total number of products." }
  else
    { sql_query := "SELECT COUNT(*) as total_records FROM customers",
      explanation := "This query counts total records in the main table." }

/-- Embedding of `_handle_average_queries` (lines 202-218). -/
def _handle_average_queries (_question : String) (question_lower : List Char) : PatternTemplate :=
  if infixB "order".data question_lower
      && (infixB "value".data question_lower || infixB "amount".data question_lower) then
    { sql_query := "SELECT AVG(total_amount) as average_order_value FROM orders",
      explanation := "This query calculates the average order value." }
  else if infixB "price".data question_lower then
    { sql_query := "SELECT AVG(price) as average_price FROM products",
      explanation := "This query calculates the average product price." }
  else
    { sql_query := "SELECT AVG(total_amount) as average_amount FROM orders",
      explanation := "This query calculates the average amount from orders." }

/-- Embedding of `_handle_sum_queries` (lines 220-231). -/
def _handle_sum_queries (_question : String) (question_lower : List Char) : PatternTemplate :=
  if infixB "revenue".data question_lower || infixB "sales".data question_lower then
    { sql_query := "SELECT SUM(total_amount) as total_revenue FROM orders WHERE status = 'Completed'",
      explanation := "This query calculates total revenue from completed orders." }
  else
    { sql_query := "SELECT SUM(total_amount) as total_amount FROM orders",
      explanation := "This query calculates the total amount from all orders." }

/-- Embedding of `_handle_list_queries` (lines 233-254). -/
def _handle_list_queries (_question : String) (question_lower : List Char) : PatternTemplate :=
  if infixB "customer".data question_lower then
    { sql_query := "SELECT customer_name, email, city, country FROM customers",
      explanation := "This query lists all customers with their basic information." }
  else if infixB "product".data question_lower then
    { sql_query := "SELECT product_name, category, price, stock_quantity FROM products",
      explanation := "This query lists all products with their details." }
  else if infixB "order".data question_lower then
    { sql_query := "SELECT o.order_id, c.customer_name, o.order_date, o.total_amount, o.status FROM orders o JOIN customers c ON o.customer_id = c.customer_id",
      explanation := "This query lists all orders with customer information." }
  else
    { sql_query := "SELECT * FROM customers LIMIT 50",
      explanation := "This query shows a list of records from the main table." }

/-- Embedding of `_identify_relevant_tables` (lines 114-136): catalog tables
whose lower-cased name, or that name minus its final character, occurs in the
question, plus entity-keyword hits that are present in the catalog;
`list(set(...))` becomes `dedup` (order caveat in the file header). -/
def _identify_relevant_tables (table_names : List String) (question_lower : List Char) :
    List String :=
  (table_names.filter (fun t =>
      infixB (lowerL t) question_lower || infixB ((lowerL t).dropLast) question_lower)
    ++ (if (["customer", "client", "user"].any fun w => infixB w.data question_lower)
          && table_names.contains "customers" then ["customers"] else [])
    ++ (if (["product", "item"].any fun w => infixB w.data question_lower)
          && table_names.contains "products" then ["products"] else [])
    ++ (if (["order", "purchase", "sale"].any fun w => infixB w.data question_lower)
          && table_names.contains "orders" then ["orders"] else [])).dedup

/-- Embedding of `_handle_generic_query` (lines 256-271). -/
def _handle_generic_query (table_names : List String) (_question : String)
    (question_lower : List Char) : PatternTemplate :=
  match _identify_relevant_tables table_names question_lower with
  | main_table :: _ =>
    { sql_query := "SELECT * FROM " ++ main_table ++ " LIMIT 10",
      explanation :=
        "This query shows data from the " ++ main_table
          ++ " table which seems relevant to your question." }
  | [] =>
    { sql_query := "SELECT customer_name, email FROM customers LIMIT 10",
      explanation := "This is a default query showing customer information. Please try rephrasing your question for better results." }

/-- Embedding of `_calculate_pattern_confidence` (lines 273-284). -/
def _calculate_pattern_confidence (question_lower : List Char) : Int :=
  if ["count", "how many", "total", "sum", "average", "avg"].any
      (fun p => infixB p.data question_lower) then 75
  else if ["top", "list", "show", "all"].any (fun p => infixB p.data question_lower) then 65
  else 50

/-- Embedding of `NLToSQLProcessor._extract_tables_from_sql` (lines 286-300):
uppercase the SQL, capture `FROM\s+(\w+)` and `JOIN\s+(\w+)`, lowercase the
captures and deduplicate. -/
def _extract_tables_from_sql (sql : String) : List String :=
  let u := upperL sql
  (((scanKw "FROM".data u ++ scanKw "JOIN".data u).map fun w =>
      String.mk (w.map Char.toLower))).dedup

/-- Embedding of `_pattern_matching_query` (lines 87-112): the ordered cue
dispatch on the lower-cased question, then the metadata enrichment. -/
def _pattern_matching_query (table_names : List String) (question : String) :
    GenerationResult :=
  let question_lower := lowerL question
  let result :=
    if hasSuperlativeCue question_lower then _handle_top_queries question question_lower
    else if hasCountCue question_lower then _handle_count_queries question question_lower
    else if hasAverageCue question_lower then _handle_average_queries question question_lower
    else if hasSumCue question_lower then _handle_sum_queries question question_lower
    else if hasListCue question_lower then _handle_list_queries question question_lower
    else _handle_generic_query table_names question question_lower
  { sql_query := result.sql_query
    explanation := result.explanation
    generation_method := "fallback"
    confidence := _calculate_pattern_confidence question_lower
    tables_used := _extract_tables_from_sql result.sql_query
    tokens_used := 0 }

end QueryCraft

namespace QueryCraft

/-! Embedding of the pure parts of `backend_api/main.py`. -/

/-- Embedding of `determine_query_complexity` (main.py lines 352-380). -/
def determine_query_complexity (sql_query : String) : String :=
  let l := lowerL sql_query
  let score : Nat :=
    (if infixB "join".data l then 2 else 0)
      + (if infixB "group by".data l then 1 else 0)
      + (if infixB "having".data l then 2 else 0)
      + (if infixB "subquery".data l || infixB "(select".data l then 3 else 0)
      + (if infixB "union".data l || infixB "intersect".data l then 2 else 0)
      + (if infixB "case when".data l then 1 else 0)
      + (if infixB "window".data l || infixB "over(".data l then 3 else 0)
  if score ≥ 6 then "Advanced" else if score ≥ 3 then "Medium" else "Easy"

/-- Numeric rank of a complexity label, for stating "at least Medium". -/
def complexity_rank (label : String) : Nat :=
  if label = "Advanced" then 2 else if label = "Medium" then 1 else 0

/-- Embedding of the confidence shift in `process_query` (main.py line 324):
the externally reported confidence for every successfully executed request is
`min(95, max(85, base_confidence + 35))`, applied to whichever generation
method produced `base_confidence`. -/
def reported_confidence (base_confidence : Int) : Int :=
  min 95 (max 85 (base_confidence + 35))

/-- Composition of `process_query` for a request served by the deterministic
generator (main.py lines 307-324 with `generation_method = "fallback"`): the
base confidence comes from the pattern heuristic and is then shifted. -/
def process_query_confidence (table_names : List String) (question : String) : Int :=
  reported_confidence (_pattern_matching_query table_names question).confidence

end QueryCraft

namespace QueryCraft

/-! Embedding of `SQLiteIntrospector.execute_query`
(sqlite_introspection.py lines 153-176).  The SQLite store itself is an
external collaborator (spec section 6); it is modelled as an abstract function
`run_store` from the SQL text to either column names plus raw rows or an error
string.  The source's `try`/`except Exception` wrapper corresponds to the
`Except` result of the store: any store-level failure is delivered as the
`error` arm, and the function is total, so nothing escapes the boundary. -/

/-- The response dictionary of `execute_query`: either the
`{columns, data, row_count}` keys or the `{error}` key are populated. -/
structure ExecutionOutcome (α : Type) where
  columns : Option (List String)
  data : Option (List (List (String × α)))
  row_count : Option Nat
  error : Option String

/-- Embedding of `execute_query`: on store success, shape each row into a
column-keyed mapping (`dict(zip(columns, row))`) and report the row count; on
any store error, return only the error string. -/
def execute_query {α : Type} (run_store : String → Except String (List String × List (List α)))
    (query : String) : ExecutionOutcome α :=
  match run_store query with
  | Except.ok (columns, results) =>
    { columns := some columns
      data := some (results.map fun row => columns.zip row)
      row_count := some results.length
      error := none }
  | Except.error e =>
    { columns := none, data := none, row_count := none, error := some e }

end QueryCraft

namespace QueryCraft

/-! Definitions supporting the dispatch-order claim (C5) and the grounding
claim (C1). -/

/-- The six rule categories of the deterministic dispatch. -/
inductive QueryCategory where
  | superlative
  | count
  | average
  | sum
  | list
  | generic
  deriving Repr, DecidableEq

/-- The category selected by the source's if/elif ladder in
`_pattern_matching_query` (nl_to_sql.py lines 92-103). -/
def patternCategory (question_lower : List Char) : QueryCategory :=
  if hasSuperlativeCue question_lower then .superlative
  else if hasCountCue question_lower then .count
  else if hasAverageCue question_lower then .average
  else if hasSumCue question_lower then .sum
  else if hasListCue question_lower then .list
  else .generic

/-- The handler the source runs for each category. -/
def category_handler (table_names : List String) (question : String)
    (question_lower : List Char) : QueryCategory → PatternTemplate
  | .superlative => _handle_top_queries question question_lower
  | .count => _handle_count_queries question question_lower
  | .average => _handle_average_queries question question_lower
  | .sum => _handle_sum_queries question question_lower
  | .list => _handle_list_queries question question_lower
  | .generic => _handle_generic_query table_names question question_lower

/-- The specification's ordered rule table (spec section 4.3 / design note in
section 9): category/predicate pairs in the fixed precedence
superlative > count > average > sum > list, with generic as the default.
This definition follows the spec's words; the dispatch-order claim compares
it with `patternCategory`, which follows the source. -/
def spec_rule_table : List (QueryCategory × (List Char → Bool)) :=
  [(.superlative, hasSuperlativeCue),
   (.count, hasCountCue),
   (.average, hasAverageCue),
   (.sum, hasSumCue),
   (.list, hasListCue)]

/-- First-match evaluation of the spec's ordered rule table, top to bottom;
no match falls through to the generic category. -/
def spec_first_match (question_lower : List Char) : QueryCategory :=
  match spec_rule_table.find? (fun rule => rule.2 question_lower) with
  | some rule => rule.1
  | none => .generic

/-- The tables hard-coded in the deterministic templates. -/
def fixed_template_tables : List String :=
  ["customers", "orders", "products", "order_items"]

/-- Every SQL string a non-generic handler (or the generic handler's
no-relevant-table default) can return. -/
def fixed_template_sqls : List String :=
  ["SELECT c.customer_name, SUM(o.total_amount) as total_spent \n                                   FROM customers c \n                                   JOIN orders o ON c.customer_id = o.customer_id \n                                   GROUP BY c.customer_id, c.customer_name \n                                   ORDER BY total_spent DESC \n                                   LIMIT 10",
   "SELECT customer_name, email FROM customers ORDER BY customer_id DESC LIMIT 10",
   "SELECT p.product_name, SUM(oi.quantity) as total_sold \n                                   FROM products p \n                                   JOIN order_items oi ON p.product_id = oi.product_id \n                                   GROUP BY p.product_id, p.product_name \n                                   ORDER BY total_sold DESC \n                                   LIMIT 10",
   "SELECT product_name, price FROM products ORDER BY price DESC LIMIT 10",
   "SELECT * FROM customers LIMIT 10",
   "SELECT COUNT(*) as customer_count FROM customers",
   "SELECT COUNT(*) as order_count FROM orders",
   "SELECT COUNT(*) as product_count FROM products",
   "SELECT COUNT(*) as total_records FROM customers",
   "SELECT AVG(total_amount) as average_order_value FROM orders",
   "SELECT AVG(price) as average_price FROM products",
   "SELECT AVG(total_amount) as average_amount FROM orders",
   "SELECT SUM(total_amount) as total_revenue FROM orders WHERE status = 'Completed'",
   "SELECT SUM(total_amount) as total_amount FROM orders",
   "SELECT customer_name, email, city, country FROM customers",
   "SELECT product_name, category, price, stock_quantity FROM products",
   "SELECT o.order_id, c.customer_name, o.order_date, o.total_amount, o.status FROM orders o JOIN customers c ON o.customer_id = c.customer_id",
   "SELECT * FROM customers LIMIT 50",
   "SELECT customer_name, email FROM customers LIMIT 10"]

end QueryCraft

namespace QueryCraft

/-! Correspondence lemmas between the executable string primitives and the
`List` order relations of the library. -/

theorem isPreB_iff (pre l : List Char) : isPreB pre l = true ↔ pre <+: l := by
  induction pre generalizing l with
  | nil => simp [isPreB]
  | cons a pre ih =>
    cases l with
    | nil => simp [isPreB]
    | cons b l => simp [isPreB, ih, List.cons_prefix_cons]

theorem infixB_iff (n l : List Char) : infixB n l = true ↔ n <:+: l := by
  induction l with
  | nil => simp [infixB, List.infix_nil, List.isEmpty_iff]
  | cons c t ih => simp [infixB, ih, isPreB_iff, List.infix_cons_iff]

theorem stripL_within (l : List Char) : stripL l <:+: l := by
  have h1 : l.dropWhile isPyWhite <:+ l := List.dropWhile_suffix _
  have h3 : (l.dropWhile isPyWhite).reverse.dropWhile isPyWhite
      <:+ (l.dropWhile isPyWhite).reverse := List.dropWhile_suffix _
  have h4 := @List.reverse_suffix Char
    (((l.dropWhile isPyWhite).reverse.dropWhile isPyWhite).reverse)
    (l.dropWhile isPyWhite)
  rw [List.reverse_reverse] at h4
  exact (h4.mp h3).isInfix.trans h1.isInfix

theorem infix_dropWhile_of {n l : List Char} (hne : n ≠ [])
    (hnw : ∀ c ∈ n, isPyWhite c = false) (h : n <:+: l) :
    n <:+: l.dropWhile isPyWhite := by
  induction l with
  | nil => exact h
  | cons c t ih =>
    rw [List.dropWhile_cons]
    by_cases hc : isPyWhite c = true
    · rw [if_pos hc]
      rcases List.infix_cons_iff.mp h with hpre | hinf
      · cases n with
        | nil => exact absurd rfl hne
        | cons a n' =>
          have ha : a = c := (List.cons_prefix_cons.mp hpre).1
          have := hnw a (by simp)
          rw [ha, hc] at this
          exact absurd this (by simp)
      · exact ih hinf
    · rw [if_neg hc]
      exact h

theorem infix_stripL_of {n l : List Char} (hne : n ≠ [])
    (hnw : ∀ c ∈ n, isPyWhite c = false) (h : n <:+: l) : n <:+: stripL l := by
  have h1 := infix_dropWhile_of hne hnw h
  have h2 : n.reverse <:+: (l.dropWhile isPyWhite).reverse := List.reverse_infix.mpr h1
  have h3 := @infix_dropWhile_of n.reverse ((l.dropWhile isPyWhite).reverse)
    (by simpa using hne)
    (by intro c hcmem; exact hnw c (List.mem_reverse.mp hcmem)) h2
  have h4 := @List.reverse_infix Char n
    (((l.dropWhile isPyWhite).reverse.dropWhile isPyWhite).reverse)
  rw [List.reverse_reverse] at h4
  exact h4.mp h3

theorem infixB_stripL (n l : List Char) (hne : n ≠ [])
    (hnw : ∀ c ∈ n, isPyWhite c = false) :
    infixB n (stripL l) = infixB n l := by
  by_cases hl : infixB n l = true
  · rw [hl]
    exact (infixB_iff _ _).mpr (infix_stripL_of hne hnw ((infixB_iff _ _).mp hl))
  · rw [Bool.not_eq_true] at hl
    rw [hl]
    cases hs : infixB n (stripL l) with
    | false => rfl
    | true =>
      have := (infixB_iff _ _).mpr (((infixB_iff _ _).mp hs).trans (stripL_within l))
      rw [this] at hl
      exact hl

end QueryCraft

namespace QueryCraft

/-- The validator as one boolean conjunction: nonempty input, `select` prefix
of the stripped lower-cased text, `from` present, balanced parentheses, no
dangerous keyword. -/
theorem validate_eq (sql : String) :
    validate_sql_syntax sql = true ↔
      (sql.data.isEmpty = false
        ∧ isPreB "select".data (stripL (lowerL sql)) = true
        ∧ infixB "from".data (stripL (lowerL sql)) = true
        ∧ sql.data.count '(' = sql.data.count ')'
        ∧ ∀ kw ∈ dangerous_keywords, infixB kw.data (stripL (lowerL sql)) = false) := by
  unfold validate_sql_syntax
  split_ifs <;> simp_all

/-- C2 (counterexample): the validator accepts a string with leading
whitespace, which does not begin with the query keyword SELECT; the claimed
if-and-only-if characterisation therefore fails as stated. -/
theorem c2_validator_iff_counterexample :
    validate_sql_syntax "  SELECT 1 FROM t" = true
      ∧ isPreB "select".data (lowerL "  SELECT 1 FROM t") = false := by decide

/-- C2 (amended): the validator accepts a SQL string if and only if, after
stripping surrounding whitespace, its lower-cased text begins with `select`,
and the string contains `FROM` (case-insensitively), has an equal count of
opening and closing parentheses, and contains none of the seven mutating
keywords as a case-insensitive substring; in particular every string
containing such a keyword in any case at any position is rejected. -/
theorem c2_validator_iff_amended (sql : String) :
    ( validate_sql_syntax sql = true ↔
      (isPreB "select".data (stripL (lowerL sql)) = true
        ∧ infixB "from".data (lowerL sql) = true
        ∧ sql.data.count '(' = sql.data.count ')'
        ∧ ∀ kw ∈ dangerous_keywords, infixB kw.data (lowerL sql) = false))
    ∧ (∀ kw ∈ dangerous_keywords, infixB kw.data (lowerL sql) = true →
        validate_sql_syntax sql = false) := by
  have hstrip : ∀ kw : String, kw ∈ ("from" :: dangerous_keywords) →
      infixB kw.data (stripL (lowerL sql)) = infixB kw.data (lowerL sql) := by
    intro kw hkw
    fin_cases hkw <;> exact infixB_stripL _ _ (by decide) (by decide)
  have hmain : validate_sql_syntax sql = true ↔
      (isPreB "select".data (stripL (lowerL sql)) = true
        ∧ infixB "from".data (lowerL sql) = true
        ∧ sql.data.count '(' = sql.data.count ')'
        ∧ ∀ kw ∈ dangerous_keywords, infixB kw.data (lowerL sql) = false) := by
    rw [validate_eq]
    constructor
    · rintro ⟨h0, h1, h2, h3, h4⟩
      refine ⟨h1, ?_, h3, ?_⟩
      · rw [← hstrip "from" (by simp)]
        exact h2
      · intro kw hkw
        rw [← hstrip kw (by simp [hkw])]
        exact h4 kw hkw
    · rintro ⟨h1, h2, h3, h4⟩
      have h0 : sql.data.isEmpty = false := by
        cases hd : sql.data with
        | nil =>
          have hnil : stripL (lowerL sql) = [] := by simp [stripL, lowerL, hd]
          rw [hnil] at h1
          exact absurd h1 (by decide)
        | cons a l => simp [hd]
      refine ⟨h0, h1, ?_, h3, ?_⟩
      · rw [hstrip "from" (by simp)]
        exact h2
      · intro kw hkw
        rw [hstrip kw (by simp [hkw])]
        exact h4 kw hkw
  refine ⟨hmain, ?_⟩
  intro kw hkw hcon
  cases hv : validate_sql_syntax sql with
  | false => rfl
  | true =>
    have := (hmain.mp hv).2.2.2 kw hkw
    rw [this] at hcon
    exact absurd hcon (by simp)

/-- C2 (witness): the amended theorem applied at a concrete input; the
keyword `update` occurs inside `updated`, so the candidate is rejected. -/
theorem c2_validator_iff_witness :
    validate_sql_syntax "SELECT x FROM tbl WHERE y = updated" = false :=
  (c2_validator_iff_amended "SELECT x FROM tbl WHERE y = updated").2
    "update" (by decide) (by decide)

/-- C6 (counterexample): for the input `DROP TABLE customers`, the validator
rejects at the read-query (SELECT-prefix) check, which runs before the
dangerous-keyword check; the verdict's reason is therefore `not a read query`
and mentions no dangerous keyword, contrary to the claim. -/
theorem c6_drop_reason_counterexample :
    (validateVerdict "DROP TABLE customers").is_valid = false
      ∧ (validateVerdict "DROP TABLE customers").reason = some "not a read query"
      ∧ ∀ kw ∈ dangerous_keywords, ∀ r ∈ (validateVerdict "DROP TABLE customers").reason,
          infixB kw.data (lowerL r) = false := by decide

/-- C6 (amended): given `DROP TABLE customers` the verdict has
`is_valid = false`, and its reason is the read-query rejection (`not a read
query`): the SELECT-prefix rule fires first and short-circuits, so the
dangerous-keyword reason is never produced for this input. -/
theorem c6_drop_verdict_amended :
    validateVerdict "DROP TABLE customers"
      = { is_valid := false, reason := some "not a read query" }
      ∧ validate_sql_syntax "DROP TABLE customers" = false := by decide

end QueryCraft

namespace QueryCraft

/-- C3 (counterexample): the validator accepts `SELECT * FROM ghost_table`
even though the only table it references, `ghost_table`, is absent from the
catalog of fixed sample tables; the validator performs no table check. -/
theorem c3_absent_table_counterexample :
    validate_sql_syntax "SELECT * FROM ghost_table" = true
      ∧ extract_tables_from_sql_llm "SELECT * FROM ghost_table" = ["ghost_table"]
      ∧ "ghost_table" ∉ ["customers", "orders", "products", "order_items"] := by decide

/-- C3 (amended): the validator receives only the SQL string and applies
purely lexical checks; it does not consult any catalog, and for every catalog
not containing `ghost_table` it still accepts a candidate referencing only
that absent table. -/
theorem c3_no_catalog_grounding_amended (catalog : List String)
    (_h : "ghost_table" ∉ catalog) :
    validate_sql_syntax "SELECT * FROM ghost_table" = true
      ∧ "ghost_table" ∈ extract_tables_from_sql_llm "SELECT * FROM ghost_table" :=
  ⟨by decide, by decide⟩

/-- C3 (witness): the amended theorem applied at the concrete sample catalog. -/
theorem c3_no_catalog_grounding_witness :
    validate_sql_syntax "SELECT * FROM ghost_table" = true
      ∧ "ghost_table" ∈ extract_tables_from_sql_llm "SELECT * FROM ghost_table" :=
  c3_no_catalog_grounding_amended ["customers", "orders", "products", "order_items"]
    (by decide)

/-- C4 (counterexample): a request answered by the deterministic generator
(`generation_method = "fallback"`) gets heuristic confidence 50, yet the
envelope reports 85 = min(95, max(85, 50 + 35)): the deterministic score is
shifted into the display band, not reported as computed. -/
theorem c4_deterministic_shift_counterexample :
    (_pattern_matching_query ["customers"] "hello").generation_method = "fallback"
      ∧ (_pattern_matching_query ["customers"] "hello").confidence = 50
      ∧ process_query_confidence ["customers"] "hello" = 85
      ∧ process_query_confidence ["customers"] "hello"
          ≠ (_pattern_matching_query ["customers"] "hello").confidence := by decide

/-- C4 (amended): the [85,95] shift is applied to the confidence of every
successfully executed request regardless of generation method; for every
deterministic request the reported confidence is
min(95, max(85, base + 35)) of the pattern heuristic base, which lies in
{50, 65, 75}, so the reported value always differs from the unshifted base. -/
theorem c4_confidence_shift_amended (table_names : List String) (question : String) :
    process_query_confidence table_names question
        = reported_confidence (_pattern_matching_query table_names question).confidence
      ∧ ((_pattern_matching_query table_names question).confidence = 50
          ∨ (_pattern_matching_query table_names question).confidence = 65
          ∨ (_pattern_matching_query table_names question).confidence = 75)
      ∧ process_query_confidence table_names question
          ≠ (_pattern_matching_query table_names question).confidence := by
  have hc : (_pattern_matching_query table_names question).confidence
      = _calculate_pattern_confidence (lowerL question) := rfl
  have hvals : (_pattern_matching_query table_names question).confidence = 50
      ∨ (_pattern_matching_query table_names question).confidence = 65
      ∨ (_pattern_matching_query table_names question).confidence = 75 := by
    rw [hc]
    unfold _calculate_pattern_confidence
    split_ifs <;> simp
  refine ⟨rfl, hvals, ?_⟩
  unfold process_query_confidence
  rcases hvals with h | h | h <;> rw [h] <;> decide

/-- C7: for the question `What are the top 10 customers by spending?` against
a catalog containing `customers` and `orders`, the deterministic SQL uses
exactly those two tables, joins `orders`, groups by customer, orders
descending by the summed total, limits to 10, and its complexity
classification is at least Medium. -/
theorem c7_top_customers_scenario :
    "customers" ∈ (_pattern_matching_query ["customers", "orders"]
        "What are the top 10 customers by spending?").tables_used
    ∧ "orders" ∈ (_pattern_matching_query ["customers", "orders"]
        "What are the top 10 customers by spending?").tables_used
    ∧ (∀ t ∈ (_pattern_matching_query ["customers", "orders"]
        "What are the top 10 customers by spending?").tables_used,
        t = "customers" ∨ t = "orders")
    ∧ infixB "join orders".data (lowerL (_pattern_matching_query ["customers", "orders"]
        "What are the top 10 customers by spending?").sql_query) = true
    ∧ infixB "group by c.customer_id, c.customer_name".data
        (lowerL (_pattern_matching_query ["customers", "orders"]
          "What are the top 10 customers by spending?").sql_query) = true
    ∧ infixB "order by total_spent desc".data
        (lowerL (_pattern_matching_query ["customers", "orders"]
          "What are the top 10 customers by spending?").sql_query) = true
    ∧ infixB "limit 10".data (lowerL (_pattern_matching_query ["customers", "orders"]
        "What are the top 10 customers by spending?").sql_query) = true
    ∧ infixB "sum(o.total_amount)".data
        (lowerL (_pattern_matching_query ["customers", "orders"]
          "What are the top 10 customers by spending?").sql_query) = true
    ∧ complexity_rank (determine_query_complexity
        (_pattern_matching_query ["customers", "orders"]
          "What are the top 10 customers by spending?").sql_query)
        ≥ complexity_rank "Medium" := by decide

/-- C8: for every store behaviour and every SQL string, the executor's
outcome populates exactly one arm — either the columns/data/row_count
success structure (with `row_count` the number of returned rows) or the
error string — and the function is total, so no store error escapes. -/
theorem c8_execution_outcome {α : Type}
    (run_store : String → Except String (List String × List (List α)))
    (query : String) :
    (((execute_query run_store query).error = none
        ∧ (execute_query run_store query).columns.isSome = true
        ∧ (execute_query run_store query).data.isSome = true
        ∧ (execute_query run_store query).row_count.isSome = true)
      ∨ ((execute_query run_store query).columns = none
        ∧ (execute_query run_store query).data = none
        ∧ (execute_query run_store query).row_count = none
        ∧ (execute_query run_store query).error.isSome = true))
    ∧ (execute_query run_store query).row_count
        = Option.map List.length (execute_query run_store query).data := by
  cases h : run_store query with
  | ok v =>
    obtain ⟨cols, rows⟩ := v
    simp [execute_query, h]
  | error e => simp [execute_query, h]

/-- C9: the deterministic generator is a pure function of the question and
the catalog: two calls with identical question and identical catalog produce
identical SQL output. -/
theorem c9_deterministic_idempotent (table_names₁ table_names₂ : List String)
    (q₁ q₂ : String) (hq : q₁ = q₂) (ht : table_names₁ = table_names₂) :
    (_pattern_matching_query table_names₁ q₁).sql_query
      = (_pattern_matching_query table_names₂ q₂).sql_query := by
  subst hq
  subst ht
  rfl

/-- C9 (witness): idempotence at a concrete question and catalog. -/
theorem c9_deterministic_idempotent_witness :
    (_pattern_matching_query ["customers"] "How many customers?").sql_query
      = (_pattern_matching_query ["customers"] "How many customers?").sql_query :=
  c9_deterministic_idempotent ["customers"] ["customers"]
    "How many customers?" "How many customers?" rfl rfl

/-- C10: for every base confidence (whatever generation method produced it),
the envelope confidence is min(95, max(85, base + 35)), an integer in the
band [85, 95]. -/
theorem c10_confidence_band (base_confidence : Int) :
    reported_confidence base_confidence = min 95 (max 85 (base_confidence + 35))
      ∧ 85 ≤ reported_confidence base_confidence
      ∧ reported_confidence base_confidence ≤ 95 := by
  refine ⟨rfl, ?_, ?_⟩
  · exact le_min (by norm_num) (le_max_left _ _)
  · exact min_le_left _ _

end QueryCraft

namespace QueryCraft

/-! Character-level facts used by the grounding proof. -/

theorem word_not_white {c : Char} (h : isWordChar c = true) : isPyWhite c = false := by
  cases hw : isPyWhite c with
  | false => rfl
  | true =>
    have hd := hw
    simp only [isPyWhite, Bool.or_eq_true, decide_eq_true_eq] at hd
    rcases hd with ((((rfl | rfl) | rfl) | rfl) | rfl) | rfl <;> exact absurd h (by decide)

theorem toLower_toUpper (c : Char) : c.toUpper.toLower = c.toLower := by
  by_cases hc : 97 ≤ c.toNat ∧ c.toNat ≤ 122
  · obtain ⟨h1, h2⟩ := hc
    have he : c = Char.ofNat c.toNat := (Char.ofNat_toNat c).symm
    rw [he]
    generalize c.toNat = n at h1 h2
    interval_cases n <;> decide
  · have hup : c.toUpper = c := by
      unfold Char.toUpper
      rw [if_neg (by simpa using hc)]
    rw [hup]

theorem word_toUpper {c : Char} (h : isWordChar c = true) : isWordChar c.toUpper = true := by
  by_cases hc : 97 ≤ c.toNat ∧ c.toNat ≤ 122
  · obtain ⟨h1, h2⟩ := hc
    have he : c = Char.ofNat c.toNat := (Char.ofNat_toNat c).symm
    rw [he]
    generalize c.toNat = n at h1 h2
    interval_cases n <;> decide
  · have hup : c.toUpper = c := by
      unfold Char.toUpper
      rw [if_neg (by simpa using hc)]
    rw [hup]
    exact h

theorem map_toLower_toUpper (l : List Char) :
    (l.map Char.toUpper).map Char.toLower = l.map Char.toLower := by
  rw [List.map_map]
  exact List.map_congr_left fun c _ => toLower_toUpper c

end QueryCraft

namespace QueryCraft

/-! Facts about the `re.findall` scanner, building up to: on
`SELECT * FROM <t> LIMIT 10` with `<t>` a nonempty word, the `FROM` scan
captures exactly `<t>`, and the `JOIN` scan captures nothing provided `<t>`
does not end in `join`. -/

theorem scanAux_nil (kw : List Char) (fuel : Nat) : scanAux kw fuel [] = [] := by
  cases fuel <;> rfl

theorem dropPre_eq_some_iff {kw l r : List Char} : dropPre kw l = some r ↔ l = kw ++ r := by
  induction kw generalizing l with
  | nil => simp [dropPre, eq_comm]
  | cons a kw ih =>
    cases l with
    | nil => simp [dropPre]
    | cons b l =>
      by_cases hab : a = b
      · subst hab
        simp [dropPre, ih]
      · simp [dropPre, hab, Ne.symm hab]

theorem tryMatch_cons_ne {k : Char} {ks : List Char} {c : Char} (rest : List Char)
    (h : ¬ k = c) : tryMatch (k :: ks) (c :: rest) = none := by
  simp [tryMatch, dropPre, h]

theorem tryMatch_length {kw l w rem : List Char}
    (h : tryMatch kw l = some (w, rem)) : rem.length < l.length := by
  unfold tryMatch at h
  cases hdp : dropPre kw l with
  | none => rw [hdp] at h; exact absurd h (by simp)
  | some rest =>
    rw [hdp] at h
    dsimp only at h
    have hl : l = kw ++ rest := dropPre_eq_some_iff.mp hdp
    by_cases hws : (rest.takeWhile isPyWhite).isEmpty
    · rw [if_pos hws] at h
      exact absurd h (by simp)
    · rw [if_neg hws] at h
      cases hr : rest with
      | nil => rw [hr] at hws; simp at hws
      | cons r0 rtail =>
        have hr0 : isPyWhite r0 = true := by
          rw [hr] at hws
          by_cases hp : isPyWhite r0 = true
          · exact hp
          · rw [List.takeWhile_cons, if_neg hp] at hws
            simp at hws
        have hrem : rem = (rest.dropWhile isPyWhite).dropWhile isWordChar := by
          by_cases hwd : ((rest.dropWhile isPyWhite).takeWhile isWordChar).isEmpty
          · rw [if_pos hwd] at h; exact absurd h (by simp)
          · rw [if_neg hwd] at h
            simp only [Option.some.injEq, Prod.mk.injEq] at h
            exact h.2.symm
        have hd1 : (rest.dropWhile isPyWhite).length ≤ rtail.length := by
          rw [hr, List.dropWhile_cons, if_pos hr0]
          exact (List.dropWhile_suffix _).length_le
        have hd2 : rem.length ≤ (rest.dropWhile isPyWhite).length := by
          rw [hrem]
          exact (List.dropWhile_suffix _).length_le
        have : rest.length ≤ l.length := by
          rw [hl]
          simp
        rw [hr] at this
        simp at this
        omega

theorem scanAux_fuel_of_le (kw : List Char) :
    ∀ (n : Nat) (l : List Char) (f₁ f₂ : Nat), l.length ≤ n →
      l.length ≤ f₁ → l.length ≤ f₂ → scanAux kw f₁ l = scanAux kw f₂ l := by
  intro n
  induction n with
  | zero =>
    intro l f₁ f₂ hn _ _
    have : l = [] := List.eq_nil_of_length_eq_zero (Nat.le_zero.mp hn)
    subst this
    rw [scanAux_nil, scanAux_nil]
  | succ n ih =>
    intro l f₁ f₂ hn h1 h2
    cases l with
    | nil => rw [scanAux_nil, scanAux_nil]
    | cons c rest =>
      cases f₁ with
      | zero => simp at h1
      | succ f₁ =>
        cases f₂ with
        | zero => simp at h2
        | succ f₂ =>
          cases hm : tryMatch kw (c :: rest) with
          | some wr =>
            obtain ⟨w, rem⟩ := wr
            have hlen := tryMatch_length hm
            simp only [scanAux, hm]
            congr 1
            have hrl : rem.length ≤ n := by
              simp at hlen hn
              omega
            exact ih rem f₁ f₂ hrl (by simp at hlen h1; omega) (by simp at hlen h2; omega)
          | none =>
            simp only [scanAux, hm]
            exact ih rest f₁ f₂ (by simp at hn; omega) (by simp at h1; omega)
              (by simp at h2; omega)

theorem scanAux_skip {k : Char} {ks : List Char} (pre : List Char)
    (hpre : ∀ c ∈ pre, ¬ c = k) :
    ∀ (l : List Char) (f : Nat),
      scanAux (k :: ks) (pre.length + f) (pre ++ l) = scanAux (k :: ks) f l := by
  induction pre with
  | nil => intro l f; simp
  | cons c pre ih =>
    intro l f
    have hck : ¬ k = c := fun h => hpre c (by simp) h.symm
    have hm : tryMatch (k :: ks) (c :: (pre ++ l)) = none := tryMatch_cons_ne _ hck
    have hfe : (c :: pre).length + f = (pre.length + f) + 1 := by
      simp
      omega
    rw [hfe, List.cons_append]
    simp only [scanAux, hm]
    exact ih (fun d hd => hpre d (by simp [hd])) l f

end QueryCraft

namespace QueryCraft

theorem takeWhile_append_all {p : Char → Bool} {xs : List Char} (ys : List Char)
    (hxs : ∀ x ∈ xs, p x = true) :
    (xs ++ ys).takeWhile p = xs ++ ys.takeWhile p := by
  induction xs with
  | nil => simp
  | cons x xs ih =>
    rw [List.cons_append, List.takeWhile_cons, if_pos (hxs x (by simp)),
      ih fun x hx => hxs x (by simp [hx]), List.cons_append]

theorem dropWhile_append_all {p : Char → Bool} {xs : List Char} (ys : List Char)
    (hxs : ∀ x ∈ xs, p x = true) :
    (xs ++ ys).dropWhile p = ys.dropWhile p := by
  induction xs with
  | nil => simp
  | cons x xs ih =>
    rw [List.cons_append, List.dropWhile_cons, if_pos (hxs x (by simp)),
      ih fun x hx => hxs x (by simp [hx])]

theorem tryMatch_join_word (T : List Char) (hw : ∀ c ∈ T, isWordChar c = true)
    (hne : T ≠ "JOIN".data) :
    tryMatch "JOIN".data (T ++ " LIMIT 10".data) = none := by
  cases hdp : dropPre "JOIN".data (T ++ " LIMIT 10".data) with
  | none => simp [tryMatch, hdp]
  | some rest =>
    have heq : T ++ " LIMIT 10".data = "JOIN".data ++ rest := dropPre_eq_some_iff.mp hdp
    have h1 : "JOIN".data <+: T ++ " LIMIT 10".data := ⟨rest, heq.symm⟩
    have h2 : T <+: T ++ " LIMIT 10".data := List.prefix_append _ _
    rcases List.prefix_or_prefix_of_prefix h1 h2 with h | h
    · obtain ⟨T1, hT1⟩ := h
      cases hT1c : T1 with
      | nil =>
        exfalso
        apply hne
        rw [← hT1, hT1c, List.append_nil]
      | cons t0 T1' =>
        have hrest : rest = T1 ++ " LIMIT 10".data := by
          have e1 : "JOIN".data ++ (T1 ++ " LIMIT 10".data) = "JOIN".data ++ rest := by
            rw [← List.append_assoc, hT1, heq]
          exact (List.append_cancel_left e1).symm
        have ht0 : isWordChar t0 = true := hw t0 (by rw [← hT1, hT1c]; simp)
        have ht0w : isPyWhite t0 = false := word_not_white ht0
        unfold tryMatch
        rw [hdp]
        dsimp only
        rw [hrest, hT1c]
        simp [List.takeWhile_cons, ht0w]
    · obtain ⟨k1, hk1⟩ := h
      cases hk1c : k1 with
      | nil =>
        exfalso
        apply hne
        rw [← hk1, hk1c, List.append_nil]
      | cons kc k1' =>
        have hB : " LIMIT 10".data = k1 ++ rest := by
          have e1 : T ++ " LIMIT 10".data = T ++ (k1 ++ rest) := by
            rw [heq, ← hk1, List.append_assoc]
          exact List.append_cancel_left e1
        have hkc : kc = ' ' := by
          rw [hk1c] at hB
          rw [show " LIMIT 10".data = ' ' :: "LIMIT 10".data from rfl] at hB
          rw [List.cons_append] at hB
          exact (List.cons.injEq _ _ _ _ ▸ hB).1.symm
        have hmem : kc ∈ "JOIN".data := by
          rw [← hk1, hk1c]
          exact List.mem_append_right _ (by simp)
        rw [hkc] at hmem
        exact absurd hmem (by decide)

theorem scanAux_join_region (T : List Char) :
    ∀ (f : Nat), (∀ c ∈ T, isWordChar c = true) → ¬ ("JOIN".data <:+ T) →
      (T ++ " LIMIT 10".data).length ≤ f →
      scanAux "JOIN".data f (T ++ " LIMIT 10".data) = [] := by
  induction T with
  | nil =>
    intro f _ _ hf
    rw [List.nil_append] at hf ⊢
    rw [scanAux_fuel_of_le "JOIN".data " LIMIT 10".data.length " LIMIT 10".data f
      " LIMIT 10".data.length le_rfl hf le_rfl]
    decide
  | cons c T' ih =>
    intro f hw hsuf hf
    have hne : c :: T' ≠ "JOIN".data := fun h => hsuf (h ▸ List.suffix_refl _)
    have hm : tryMatch "JOIN".data ((c :: T') ++ " LIMIT 10".data) = none :=
      tryMatch_join_word (c :: T') hw hne
    cases f with
    | zero => simp at hf
    | succ f =>
      rw [List.cons_append] at hm ⊢
      simp only [scanAux, hm]
      exact ih f (fun d hd => hw d (by simp [hd]))
        (fun hs => hsuf (hs.trans (List.suffix_cons c T')))
        (by simp at hf ⊢; omega)

theorem tryMatch_from_word (T : List Char) (t0 : Char) (hw0 : isWordChar t0 = true)
    (hw : ∀ c ∈ T, isWordChar c = true) :
    tryMatch "FROM".data ("FROM".data ++ (' ' :: ((t0 :: T) ++ " LIMIT 10".data)))
      = some (t0 :: T, " LIMIT 10".data) := by
  have hdp : dropPre "FROM".data ("FROM".data ++ (' ' :: ((t0 :: T) ++ " LIMIT 10".data)))
      = some (' ' :: ((t0 :: T) ++ " LIMIT 10".data)) := dropPre_eq_some_iff.mpr rfl
  have ht0w : isPyWhite t0 = false := word_not_white hw0
  have hwall : ∀ c ∈ t0 :: T, isWordChar c = true := by
    intro c hc
    rcases List.mem_cons.mp hc with rfl | hc
    · exact hw0
    · exact hw c hc
  have e2 : List.dropWhile isPyWhite (' ' :: t0 :: (T ++ " LIMIT 10".data))
      = t0 :: (T ++ " LIMIT 10".data) := by
    rw [List.dropWhile_cons_of_pos (by decide), List.dropWhile_cons_of_neg (by simp [ht0w])]
  have e4 : List.takeWhile isWordChar (t0 :: (T ++ " LIMIT 10".data)) = t0 :: T := by
    rw [← List.cons_append, takeWhile_append_all _ hwall,
      show List.takeWhile isWordChar " LIMIT 10".data = ([] : List Char) by decide,
      List.append_nil]
  have e5 : List.dropWhile isWordChar (t0 :: (T ++ " LIMIT 10".data)) = " LIMIT 10".data := by
    rw [← List.cons_append, dropWhile_append_all _ hwall]
    decide
  unfold tryMatch
  rw [hdp]
  dsimp only
  simp [e2, e4, e5, hw0]
  decide

theorem scan_from_region (T : List Char) (hne : T ≠ [])
    (hw : ∀ c ∈ T, isWordChar c = true) (f : Nat)
    (hf : ("FROM".data ++ (' ' :: (T ++ " LIMIT 10".data))).length ≤ f) :
    scanAux "FROM".data f ("FROM".data ++ (' ' :: (T ++ " LIMIT 10".data))) = [T] := by
  cases hT : T with
  | nil => exact absurd hT hne
  | cons t0 T' =>
    subst hT
    have hm := tryMatch_from_word T' t0 (hw t0 (by simp)) (fun c hc => hw c (by simp [hc]))
    cases f with
    | zero => simp at hf
    | succ f =>
      rw [show ("FROM".data ++ (' ' :: ((t0 :: T') ++ " LIMIT 10".data)))
          = 'F' :: ("ROM".data ++ (' ' :: ((t0 :: T') ++ " LIMIT 10".data))) from rfl] at hm ⊢
      simp only [scanAux, hm]
      have hf9 : " LIMIT 10".data.length ≤ f := by
        simp at hf ⊢
        omega
      have hnil : scanAux "FROM".data " LIMIT 10".data.length " LIMIT 10".data = [] := by
        decide
      rw [scanAux_fuel_of_le "FROM".data " LIMIT 10".data.length " LIMIT 10".data f
        " LIMIT 10".data.length le_rfl hf9 le_rfl, hnil]

end QueryCraft

namespace QueryCraft

/-- Table extraction on the generic template: with `t` a nonempty word whose
lower-cased form does not end in `join`, the scan of
`SELECT * FROM <t> LIMIT 10` captures exactly `t`. -/
theorem extract_generic (t : String) (hne : t.data ≠ [])
    (hw : ∀ c ∈ t.data, isWordChar c = true)
    (hjoin : ¬ ("join".data <:+ t.data.map Char.toLower)) :
    _extract_tables_from_sql ("SELECT * FROM " ++ t ++ " LIMIT 10")
      = [String.mk (t.data.map Char.toLower)] := by
  have hdata : ("SELECT * FROM " ++ t ++ " LIMIT 10").data
      = "SELECT * FROM ".data ++ t.data ++ " LIMIT 10".data := by
    cases t
    rfl
  have hu : upperL ("SELECT * FROM " ++ t ++ " LIMIT 10")
      = "SELECT * FROM ".data ++ (t.data.map Char.toUpper ++ " LIMIT 10".data) := by
    unfold upperL
    rw [hdata, List.map_append, List.map_append,
      show "SELECT * FROM ".data.map Char.toUpper = "SELECT * FROM ".data by decide,
      show " LIMIT 10".data.map Char.toUpper = " LIMIT 10".data by decide,
      List.append_assoc]
  have hwu : ∀ c ∈ t.data.map Char.toUpper, isWordChar c = true := by
    intro c hc
    obtain ⟨c0, hc0, rfl⟩ := List.mem_map.mp hc
    exact word_toUpper (hw c0 hc0)
  have hTne : t.data.map Char.toUpper ≠ [] := by
    intro h
    exact hne (List.map_eq_nil_iff.mp h)
  have hfrom : scanKw "FROM".data (upperL ("SELECT * FROM " ++ t ++ " LIMIT 10"))
      = [t.data.map Char.toUpper] := by
    rw [hu]
    unfold scanKw
    have hassoc : "SELECT * FROM ".data ++ (t.data.map Char.toUpper ++ " LIMIT 10".data)
        = "SELECT * ".data
            ++ ("FROM".data ++ (' ' :: (t.data.map Char.toUpper ++ " LIMIT 10".data))) := by
      rw [show "SELECT * FROM ".data = "SELECT * ".data ++ ("FROM".data ++ [' ']) by decide]
      simp
    rw [hassoc]
    have hlen : ("SELECT * ".data
          ++ ("FROM".data ++ (' ' :: (t.data.map Char.toUpper ++ " LIMIT 10".data)))).length
        = "SELECT * ".data.length
          + ("FROM".data ++ (' ' :: (t.data.map Char.toUpper ++ " LIMIT 10".data))).length := by
      simp
      omega
    rw [hlen, show "FROM".data = 'F' :: "ROM".data from rfl,
      scanAux_skip "SELECT * ".data (by decide)]
    exact scan_from_region (t.data.map Char.toUpper) hTne hwu _ le_rfl
  have hjoinU : ¬ ("JOIN".data <:+ t.data.map Char.toUpper) := by
    intro hs
    apply hjoin
    have hmap := List.IsSuffix.map Char.toLower hs
    rw [map_toLower_toUpper,
      show "JOIN".data.map Char.toLower = "join".data by decide] at hmap
    exact hmap
  have hjoinScan : scanKw "JOIN".data (upperL ("SELECT * FROM " ++ t ++ " LIMIT 10")) = [] := by
    rw [hu]
    unfold scanKw
    have hlen2 : ("SELECT * FROM ".data
          ++ (t.data.map Char.toUpper ++ " LIMIT 10".data)).length
        = "SELECT * FROM ".data.length
          + (t.data.map Char.toUpper ++ " LIMIT 10".data).length := by
      simp
      omega
    rw [hlen2, show "JOIN".data = 'J' :: "OIN".data from rfl,
      scanAux_skip "SELECT * FROM ".data (by decide)]
    exact scanAux_join_region (t.data.map Char.toUpper) _ hwu hjoinU le_rfl
  unfold _extract_tables_from_sql
  dsimp only
  rw [hfrom, hjoinScan]
  simp
  congr 1
  exact List.map_congr_left fun c _ => toLower_toUpper c

/-- Every table the generic relevance scan returns is a catalog table. -/
theorem relevant_mem (table_names : List String) (question_lower : List Char) :
    ∀ t ∈ _identify_relevant_tables table_names question_lower, t ∈ table_names := by
  intro t ht
  unfold _identify_relevant_tables at ht
  rw [List.mem_dedup] at ht
  simp only [List.mem_append] at ht
  rcases ht with ((hf | hc) | hp) | ho
  · exact (List.mem_filter.mp hf).1
  · by_cases hcond : (["customer", "client", "user"].any fun w => infixB w.data question_lower)
        && table_names.contains "customers"
    · rw [if_pos hcond] at hc
      have : t = "customers" := by simpa using hc
      rw [this]
      have := (Bool.and_eq_true _ _).mp hcond
      exact List.elem_iff.mp this.2
    · rw [if_neg hcond] at hc
      exact absurd hc (by simp)
  · by_cases hcond : (["product", "item"].any fun w => infixB w.data question_lower)
        && table_names.contains "products"
    · rw [if_pos hcond] at hp
      have : t = "products" := by simpa using hp
      rw [this]
      have := (Bool.and_eq_true _ _).mp hcond
      exact List.elem_iff.mp this.2
    · rw [if_neg hcond] at hp
      exact absurd hp (by simp)
  · by_cases hcond : (["order", "purchase", "sale"].any fun w => infixB w.data question_lower)
        && table_names.contains "orders"
    · rw [if_pos hcond] at ho
      have : t = "orders" := by simpa using ho
      rw [this]
      have := (Bool.and_eq_true _ _).mp hcond
      exact List.elem_iff.mp this.2
    · rw [if_neg hcond] at ho
      exact absurd ho (by simp)

theorem top_sql_mem (q : String) (ql : List Char) :
    (_handle_top_queries q ql).sql_query ∈ fixed_template_sqls := by
  unfold _handle_top_queries
  split_ifs <;> decide

theorem count_sql_mem (q : String) (ql : List Char) :
    (_handle_count_queries q ql).sql_query ∈ fixed_template_sqls := by
  unfold _handle_count_queries
  split_ifs <;> decide

theorem average_sql_mem (q : String) (ql : List Char) :
    (_handle_average_queries q ql).sql_query ∈ fixed_template_sqls := by
  unfold _handle_average_queries
  split_ifs <;> decide

theorem sum_sql_mem (q : String) (ql : List Char) :
    (_handle_sum_queries q ql).sql_query ∈ fixed_template_sqls := by
  unfold _handle_sum_queries
  split_ifs <;> decide

theorem list_sql_mem (q : String) (ql : List Char) :
    (_handle_list_queries q ql).sql_query ∈ fixed_template_sqls := by
  unfold _handle_list_queries
  split_ifs <;> decide

/-- Grounding of the fixed templates: every table the scan extracts from any
of them is one of the four hard-coded sample tables. -/
theorem extract_fixed :
    ∀ sql ∈ fixed_template_sqls, ∀ name ∈ _extract_tables_from_sql sql,
      name ∈ fixed_template_tables := by decide

end QueryCraft

namespace QueryCraft

/-- C1 (counterexample): against the catalog `["employees"]` the question
`How many customers do we have?` yields SQL whose extracted table
`customers` is not in the supplied catalog: the deterministic templates
hard-code their table names, so the claimed grounding property fails. -/
theorem c1_grounding_counterexample :
    "customers" ∈ (_pattern_matching_query ["employees"]
        "How many customers do we have?").tables_used
      ∧ "customers" ∉ (["employees"].map fun t => String.mk (t.data.map Char.toLower))
      ∧ "customers" ∉ ["employees"] := by decide

/-- C1 (amended): for every question and every catalog whose table names are
nonempty words over letters, digits and underscore and do not end in `join`
(case-insensitively), every table name appearing in the deterministic SQL is
either the lower-cased form of a catalog table or one of the four hard-coded
template tables customers, orders, products, order_items. -/
theorem c1_grounding_amended (table_names : List String) (question : String)
    (hcat : ∀ t ∈ table_names, t.data ≠ [] ∧ (∀ c ∈ t.data, isWordChar c = true)
        ∧ ¬ ("join".data <:+ t.data.map Char.toLower)) :
    ∀ name ∈ (_pattern_matching_query table_names question).tables_used,
      name ∈ (table_names.map fun t => String.mk (t.data.map Char.toLower))
        ∨ name ∈ fixed_template_tables := by
  intro name hname
  by_cases h1 : hasSuperlativeCue (lowerL question) = true
  · have hr : (_pattern_matching_query table_names question).tables_used
        = _extract_tables_from_sql (_handle_top_queries question (lowerL question)).sql_query := by
      simp [_pattern_matching_query, h1]
    rw [hr] at hname
    exact Or.inr (extract_fixed _ (top_sql_mem question (lowerL question)) name hname)
  · by_cases h2 : hasCountCue (lowerL question) = true
    · have hr : (_pattern_matching_query table_names question).tables_used
          = _extract_tables_from_sql
              (_handle_count_queries question (lowerL question)).sql_query := by
        simp [_pattern_matching_query, h1, h2]
      rw [hr] at hname
      exact Or.inr (extract_fixed _ (count_sql_mem question (lowerL question)) name hname)
    · by_cases h3 : hasAverageCue (lowerL question) = true
      · have hr : (_pattern_matching_query table_names question).tables_used
            = _extract_tables_from_sql
                (_handle_average_queries question (lowerL question)).sql_query := by
          simp [_pattern_matching_query, h1, h2, h3]
        rw [hr] at hname
        exact Or.inr (extract_fixed _ (average_sql_mem question (lowerL question)) name hname)
      · by_cases h4 : hasSumCue (lowerL question) = true
        · have hr : (_pattern_matching_query table_names question).tables_used
              = _extract_tables_from_sql
                  (_handle_sum_queries question (lowerL question)).sql_query := by
            simp [_pattern_matching_query, h1, h2, h3, h4]
          rw [hr] at hname
          exact Or.inr (extract_fixed _ (sum_sql_mem question (lowerL question)) name hname)
        · by_cases h5 : hasListCue (lowerL question) = true
          · have hr : (_pattern_matching_query table_names question).tables_used
                = _extract_tables_from_sql
                    (_handle_list_queries question (lowerL question)).sql_query := by
              simp [_pattern_matching_query, h1, h2, h3, h4, h5]
            rw [hr] at hname
            exact Or.inr (extract_fixed _ (list_sql_mem question (lowerL question)) name hname)
          · have hr : (_pattern_matching_query table_names question).tables_used
                = _extract_tables_from_sql
                    (_handle_generic_query table_names question (lowerL question)).sql_query := by
              simp [_pattern_matching_query, h1, h2, h3, h4, h5]
            rw [hr] at hname
            cases hrel : _identify_relevant_tables table_names (lowerL question) with
            | nil =>
              have hsql : (_handle_generic_query table_names question (lowerL question)).sql_query
                  = "SELECT customer_name, email FROM customers LIMIT 10" := by
                simp [_handle_generic_query, hrel]
              rw [hsql] at hname
              exact Or.inr (extract_fixed _ (by decide) name hname)
            | cons t rest =>
              have hsql : (_handle_generic_query table_names question (lowerL question)).sql_query
                  = "SELECT * FROM " ++ t ++ " LIMIT 10" := by
                simp [_handle_generic_query, hrel]
              have htm : t ∈ table_names :=
                relevant_mem table_names (lowerL question) t (by rw [hrel]; simp)
              obtain ⟨hne, hw, hjoin⟩ := hcat t htm
              rw [hsql, extract_generic t hne hw hjoin] at hname
              have : name = String.mk (t.data.map Char.toLower) := by simpa using hname
              rw [this]
              exact Or.inl (List.mem_map.mpr ⟨t, htm, rfl⟩)

/-- C1 (witness): the amended theorem at the catalog `["Products"]` and
question `show products info`, whose SQL references the `products` table. -/
theorem c1_grounding_witness :
    "products" ∈ (["Products"].map fun t => String.mk (t.data.map Char.toLower))
      ∨ "products" ∈ fixed_template_tables :=
  c1_grounding_amended ["Products"] "show products info" (by decide) "products" (by decide)

end QueryCraft

namespace QueryCraft

/-- C5: the deterministic dispatch is the top-to-bottom first-match
evaluation of the ordered rule table superlative > count > average > sum >
list > generic, the matched category alone selects the handler whose template
is returned, and in particular every question with a superlative cue — even
one that also has a count cue — is routed to the superlative category. -/
theorem c5_ordered_dispatch (question : String) :
    patternCategory (lowerL question) = spec_first_match (lowerL question)
      ∧ (∀ table_names, (_pattern_matching_query table_names question).sql_query
          = (category_handler table_names question (lowerL question)
              (patternCategory (lowerL question))).sql_query)
      ∧ (hasSuperlativeCue (lowerL question) = true →
          patternCategory (lowerL question) = QueryCategory.superlative) := by
  refine ⟨?_, ?_, ?_⟩
  · cases h1 : hasSuperlativeCue (lowerL question) <;>
    cases h2 : hasCountCue (lowerL question) <;>
    cases h3 : hasAverageCue (lowerL question) <;>
    cases h4 : hasSumCue (lowerL question) <;>
    cases h5 : hasListCue (lowerL question) <;>
      simp [patternCategory, spec_first_match, spec_rule_table, List.find?,
        h1, h2, h3, h4, h5]
  · intro table_names
    cases h1 : hasSuperlativeCue (lowerL question) <;>
    cases h2 : hasCountCue (lowerL question) <;>
    cases h3 : hasAverageCue (lowerL question) <;>
    cases h4 : hasSumCue (lowerL question) <;>
    cases h5 : hasListCue (lowerL question) <;>
      simp [patternCategory, category_handler, _pattern_matching_query,
        h1, h2, h3, h4, h5]
  · intro h
    simp [patternCategory, h]

/-- C5 (witness): the question `How many of the top customers?` contains both
a superlative cue (`top`) and a count cue (`how many`); the theorem routes it
to the superlative category, and its SQL is the superlative handler's. -/
theorem c5_ordered_dispatch_witness :
    patternCategory (lowerL "How many of the top customers?") = QueryCategory.superlative
      ∧ (_pattern_matching_query ["customers"] "How many of the top customers?").sql_query
          = (category_handler ["customers"] "How many of the top customers?"
              (lowerL "How many of the top customers?")
              (patternCategory (lowerL "How many of the top customers?"))).sql_query :=
  ⟨(c5_ordered_dispatch "How many of the top customers?").2.2 (by decide),
    (c5_ordered_dispatch "How many of the top customers?").2.1 ["customers"]⟩

end QueryCraft

